import Mathlib

/-!
Verification development for the `image-walker-game` repository
(`src/imagewalkerv1.py`).  The physics / procedural-level core of the game
(`ImageWalkerMode`, `LevelPlayMode`, `generate_level_by_index`,
`load_coins_data`) is shallowly embedded below: Python floats are modelled
as exact rationals (`ℚ`), Python ints as `Int`, per-instance dictionaries as
Lean structures, and the in-place mutation of one `_update` tick as a pure
state-transformer on a `GameState` record.  Rendering, audio and the event
loop are out of scope; `time.time()` is passed in as an explicit `now`
parameter (one instant per tick).
-/

set_option maxHeartbeats 1600000
set_option maxRecDepth 4000

namespace ImageWalker

/-! ## Pseudo-random number stream

The source draws randomness from Python's Mersenne-Twister generators:
the process-global `random` module (endless generation) and a local
`random.Random(idx + 12345)` (seeded levels).  Both are deterministic
streams that are pure functions of their seed.  We model the stream
state as a `Nat` advanced by a 64-bit linear-congruential mixing step —
a stand-in for the Twister; every theorem below depends only on the
stream being deterministic and on the range bounds of `randint` /
`random()`, which the model shares with the real generator. -/

/-- 2^64, the modulus of the model stream. -/
def U64 : Nat := 18446744073709551616

/-- One mixing step of the model stream (64-bit LCG). -/
def lcg (s : Nat) : Nat := (6364136223846793005 * s + 1442695040888963407) % U64

/-- Models `random.Random(seed)`: derive the initial stream state solely
from the integer seed. -/
def seedOf (i : Int) : Nat := (i % (U64 : Int)).toNat

/-- Models `rnd.randint(a, b)`: an integer in `[a, b]` (both ends
included), threading the stream state. -/
def randint (s : Nat) (a b : Int) : Int × Nat :=
  (a + ((lcg s % (b - a + 1).toNat : Nat) : Int), lcg s)

/-- Models `rnd.random()`: a rational in `[0, 1)`, threading the stream
state. -/
def randfloat (s : Nat) : ℚ × Nat :=
  (((lcg s % 9007199254740992 : Nat) : ℚ) / 9007199254740992, lcg s)

/-- Models `rnd.uniform(a, b) = a + (b-a)*random()`. -/
def uniformQ (s : Nat) (a b : ℚ) : ℚ × Nat :=
  let (r, s') := randfloat s
  (a + (b - a) * r, s')

theorem randint_lb (s : Nat) (a b : Int) : a ≤ (randint s a b).1 := by
  simp only [randint]
  have : (0 : Int) ≤ ((lcg s % (b - a + 1).toNat : Nat) : Int) := Int.ofNat_nonneg _
  omega

theorem randint_ub (s : Nat) (a b : Int) (h : a ≤ b) : (randint s a b).1 ≤ b := by
  simp only [randint]
  have hpos : 0 < (b - a + 1).toNat := by omega
  have := Nat.mod_lt (lcg s) hpos
  omega

/-! ## Geometry primitives (source lines 729-738) -/

/-- An axis-aligned rectangle `{x, y, w, h}` as used for platforms,
spikes and springs. -/
structure Rect where
  x : ℚ
  y : ℚ
  w : ℚ
  h : ℚ
  deriving DecidableEq, Repr

/-- `ImageWalkerMode._intersect` (line 730): strict open-interval overlap
of the body rectangle `(ax, ay, aw, ah)` with rectangle `b`. -/
def intersectB (ax ay aw ah : ℚ) (b : Rect) : Bool :=
  (ax < b.x + b.w) && (ax + aw > b.x) && (ay < b.y + b.h) && (ay + ah > b.y)

/-- `ImageWalkerMode._circle_rect_overlap` (line 734): clamp the circle
center to the rectangle and compare squared distance to `r*r`
(touching counts, `≤`). -/
def circle_rect_overlap (cx cy r rx ry rw rh : ℚ) : Bool :=
  let closest_x := max rx (min cx (rx + rw))
  let closest_y := max ry (min cy (ry + rh))
  let dx := cx - closest_x
  let dy := cy - closest_y
  (dx * dx + dy * dy) ≤ r * r

/-! ## Entity records (source lines 493-509, 433-447) -/

/-- Orb kinds (`"small" | "normal" | "high"`). -/
inductive OrbType where
  | small
  | normal
  | high
  deriving DecidableEq, Repr

/-- An orb circle `{x, y, r, type}` (line 508-509). -/
structure Orb where
  x : ℚ
  y : ℚ
  r : ℚ
  typ : OrbType
  deriving DecidableEq, Repr

/-- A moving platform `{x, y, w, h, vx, home, range}` (line 502-503). -/
structure Mover where
  x : ℚ
  y : ℚ
  w : ℚ
  h : ℚ
  vx : ℚ
  home : ℚ
  range : ℚ
  deriving DecidableEq, Repr

/-- A coin `{id, x, y, r, collected}` (line 439). -/
structure Coin where
  id : Int
  x : ℚ
  y : ℚ
  r : ℚ
  collected : Bool
  deriving DecidableEq, Repr

/-- The rectangle of a mover, as used by `_resolve_collisions`. -/
def Mover.toRect (m : Mover) : Rect := ⟨m.x, m.y, m.w, m.h⟩

/-! ## Constants (source lines 45-49 and the `__init__` literals of
`ImageWalkerMode`, lines 398-414) -/

def COIN_CHUNK_SPAWN_PROB : ℚ := 6 / 100
def SPRING_CHUNK_SPAWN_PROB : ℚ := 15 / 1000
def SPRING_BOOST : ℚ := -760
def BUFF_DURATION_SECONDS : ℚ := 60

def gravity : ℚ := 1500
def move_accel : ℚ := 2200
def max_speed : ℚ := 360
def jump_speed : ℚ := 580
def friction_ground : ℚ := 1800
def friction_air : ℚ := 200
def kill_y : ℚ := 1200
def pw : ℚ := 36
def ph : ℚ := 48

/-- `clamp` (line 95-96). -/
def clamp (v a b : ℚ) : ℚ := max a (min b v)

/-- Python `int()` applied to a rational: truncation toward zero. -/
def pyInt (q : ℚ) : Int :=
  if q.num < 0 then -((q.num.natAbs / q.den : Nat) : Int)
  else ((q.num.natAbs / q.den : Nat) : Int)

/-! ## Session state

One record for the mutable fields of `ImageWalkerMode` that the physics
tick reads or writes (lines 398-427).  The class-level
`COIN_ID_COUNTER` is carried as `next_coin_id`. -/

structure GameState where
  px : ℚ
  py : ℚ
  vx : ℚ
  vy : ℚ
  on_ground : Bool
  dead : Bool
  platforms : List Rect
  movers : List Mover
  spikes : List Rect
  orbs : List Orb
  springs : List Rect
  coins : List Coin
  hold_left : Bool
  hold_right : Bool
  want_jump : Bool
  time_alive : ℚ
  score : Int
  cam_x : ℚ
  cam_y : ℚ
  level_extent_x : ℚ
  ground_y : Int
  buff_end_time : ℚ
  w : ℚ
  h : ℚ
  sidescroller : Bool
  next_coin_id : Int
  deriving DecidableEq, Repr

/-- `scroll_speed` (line 414): `140` in sidescroller variant, else `0`. -/
def scroll_speed (s : GameState) : ℚ := if s.sidescroller then 140 else 0

/-- Number of collected coins in a list. -/
def countCollected (coins : List Coin) : Nat := coins.countP (·.collected)

/-! ## Coin and spring generation (lines 433-447) -/

/-- The search loop of `_generate_coin` (lines 434-437): is some
uncollected coin strictly closer than 64 units (squared distance) to
`(x, y)`? -/
def coin_blocked (coins : List Coin) (x y : ℚ) : Bool :=
  coins.any fun c =>
    !c.collected && decide ((c.x - x) * (c.x - x) + (c.y - y) * (c.y - y) < 64 * 64)

/-- `_generate_coin` (lines 433-440): refuse when an uncollected coin is
within 64 units, otherwise append a fresh coin (radius 10, uncollected)
with the next id and bump the counter.  Returns the created coin (if
any), the new coin list and the new counter. -/
def generate_coin (coins : List Coin) (cid : Int) (x y : ℚ) :
    Option Coin × List Coin × Int :=
  if coin_blocked coins x y then (none, coins, cid)
  else
    let c : Coin := ⟨cid, x, y, 10, false⟩
    (some c, coins ++ [c], cid + 1)

/-- `_generate_spring` (lines 442-447): refuse when an existing spring is
within 80 units horizontally, otherwise append a `48 × 12` spring sitting
on the ground line. -/
def generate_spring (springs : List Rect) (gy : Int) (x : ℚ) : List Rect :=
  if springs.any (fun sp => decide (|sp.x - x| < 80)) then springs
  else springs ++ [⟨x, (gy : ℚ) - 12, 48, 12⟩]

/-! ## One endless-generation chunk (`_add_level_chunk`, lines 470-491)

The asset library is empty in this embedding (platform images are a
rendering concern), so `_add_platform` always takes the default height
48.  The `rng` argument is the state of the process-global `random`
stream. -/

/-- Lines 475-477: the 60% orb roll within the new platform's span.  The
two components of the source's branch (`orbs` list and stream state) are
written componentwise under the same `random() < 0.6` test. -/
def chunk_orb_roll (orbs : List Orb) (extent py : ℚ) (w : Int) (rng : Nat) :
    List Orb × Nat :=
  let ro := randfloat rng
  let u1 := uniformQ ro.2 ((w : ℚ) * (3/10)) ((w : ℚ) * (7/10))
  let u2 := uniformQ u1.2 80 160
  let tr := randfloat u2.2
  let typ := if tr.1 < 35/100 then OrbType.small
             else if tr.1 < 80/100 then OrbType.normal else OrbType.high
  let r : ℚ := match typ with | .small => 10 | .normal => 12 | .high => 14
  (if ro.1 < 6/10 then orbs ++ [⟨extent + u1.1, py - u2.1, r, typ⟩] else orbs,
   if ro.1 < 6/10 then tr.2 else ro.2)

/-- Lines 478-481: the 35% moving-platform roll, componentwise under the
same `random() < 0.35` test. -/
def chunk_mover_roll (movers : List Mover) (extent py : ℚ) (w : Int)
    (rng : Nat) : List Mover × Nat :=
  let rm := randfloat rng
  let mw := randint rm.2 80 140
  let mx := uniformQ mw.2 ((w : ℚ) * (2/10)) ((w : ℚ) * (8/10) - (mw.1 : ℚ))
  let my := randint mx.2 60 140
  let sgn := randfloat my.2
  let mvx : ℚ := if sgn.1 < 1/2 then -120 else 120
  let mr := randint sgn.2 100 220
  let x0 := extent + mx.1
  (if rm.1 < 35/100 then
      movers ++ [⟨x0, py - (my.1 : ℚ), (mw.1 : ℚ), 20, mvx, x0, (mr.1 : ℚ)⟩]
    else movers,
   if rm.1 < 35/100 then mr.2 else rm.2)

/-- Lines 482-483: the 22% spike-strip roll. -/
def chunk_spike_roll (spikes : List Rect) (extent py : ℚ) (w : Int)
    (rng : Nat) : List Rect × Nat :=
  let rs := randfloat rng
  (if rs.1 < 22/100 then
      spikes ++ [⟨extent + (w : ℚ) * (25/100), py - 12, 64, 16⟩]
    else spikes,
   rs.2)

/-- Lines 484-487: the 6% coin roll, through `_generate_coin`,
componentwise under the same `random() < COIN_CHUNK_SPAWN_PROB` test. -/
def chunk_coin_roll (coins : List Coin) (cid : Int) (extent py : ℚ) (w : Int)
    (rng : Nat) : List Coin × Int × Nat :=
  let rc := randfloat rng
  let cu := uniformQ rc.2 ((2/10) * (w : ℚ)) ((8/10) * (w : ℚ))
  let cv := uniformQ cu.2 40 120
  let g := generate_coin coins cid (extent + cu.1) (py - cv.1)
  (if rc.1 < COIN_CHUNK_SPAWN_PROB then g.2.1 else coins,
   if rc.1 < COIN_CHUNK_SPAWN_PROB then g.2.2 else cid,
   if rc.1 < COIN_CHUNK_SPAWN_PROB then cv.2 else rc.2)

/-- Lines 488-490: the 1.5% spring roll, through `_generate_spring`,
componentwise under the same `random() < SPRING_CHUNK_SPAWN_PROB`
test. -/
def chunk_spring_roll (springs : List Rect) (gy : Int) (extent : ℚ) (w : Int)
    (rng : Nat) : List Rect × Nat :=
  let rsp := randfloat rng
  let su := uniformQ rsp.2 ((2/10) * (w : ℚ)) ((8/10) * (w : ℚ))
  (if rsp.1 < SPRING_CHUNK_SPAWN_PROB then generate_spring springs gy (extent + su.1)
    else springs,
   if rsp.1 < SPRING_CHUNK_SPAWN_PROB then su.2 else rsp.2)

def add_level_chunk (s : GameState) (rng : Nat) : GameState × Nat :=
  let pw_ := randint rng 180 320
  let w := pw_.1
  let pg := randint pw_.2 80 200
  let gap := pg.1
  let pd := randint pg.2 (-140) 140
  let py : ℚ := (s.ground_y : ℚ) + (pd.1 : ℚ)
  let platforms1 := s.platforms ++ [⟨s.level_extent_x, py, (w : ℚ), 48⟩]
  let orbStep := chunk_orb_roll s.orbs s.level_extent_x py w pd.2
  let movStep := chunk_mover_roll s.movers s.level_extent_x py w orbStep.2
  let spkStep := chunk_spike_roll s.spikes s.level_extent_x py w movStep.2
  let coinStep := chunk_coin_roll s.coins s.next_coin_id s.level_extent_x py w
    spkStep.2
  let springStep := chunk_spring_roll s.springs s.ground_y s.level_extent_x w
    coinStep.2.2
  ({ s with
      platforms := platforms1
      orbs := orbStep.1
      movers := movStep.1
      spikes := spkStep.1
      coins := coinStep.1
      next_coin_id := coinStep.2.1
      springs := springStep.1
      level_extent_x := s.level_extent_x + (w : ℚ) + (gap : ℚ) },
   springStep.2)

/-! ## The per-tick physics step (`_update`, lines 598-692) -/

/-- Lines 599-605: horizontal acceleration from held input, friction when
no net input, clamp to the maximum speed. -/
def step_vx (s : GameState) (dt : ℚ) : ℚ :=
  let accel : ℚ := (if s.hold_left then -move_accel else 0) +
                   (if s.hold_right then move_accel else 0)
  let vx1 := s.vx + accel * dt
  let fr := if s.on_ground then friction_ground else friction_air
  let vx2 :=
    if accel = 0 then
      if vx1 > 0 then max 0 (vx1 - fr * dt)
      else if vx1 < 0 then min 0 (vx1 + fr * dt)
      else vx1
    else vx1
  clamp vx2 (-max_speed) max_speed

/-- Is some orb of kind `t` overlapping the body
(`_orbs_touching_player`, lines 722-727, queried by membership)? -/
def orb_touch (orbs : List Orb) (px py : ℚ) (t : OrbType) : Bool :=
  orbs.any fun o => o.typ = t && circle_rect_overlap o.x o.y o.r px py pw ph

/-- Is any orb overlapping the body? -/
def orb_touch_any (orbs : List Orb) (px py : ℚ) : Bool :=
  orbs.any fun o => circle_rect_overlap o.x o.y o.r px py pw ph

/-- Lines 610-614: the jump multiplier from the touched orb kinds,
priority high > normal > small, `1.0` when no orb is touched. -/
def jump_mult (orbs : List Orb) (px py : ℚ) : ℚ :=
  if orb_touch_any orbs px py then
    if orb_touch orbs px py .high then 135/100
    else if orb_touch orbs px py .normal then 1
    else if orb_touch orbs px py .small then 6/10
    else 1
  else 1

/-- Lines 616-617: consume a jump request when the body is on the ground
or touching any orb, setting the vertical velocity to
`-jump_speed * mult`. -/
def apply_jump (vy : ℚ) (want og touching : Bool) (mult : ℚ) : ℚ :=
  if want && (og || touching) then -jump_speed * mult else vy

/-- Lines 620-623: advance each mover and reflect its velocity when it
leaves its range around `home`. -/
def movers_step (movers : List Mover) (dt : ℚ) : List Mover :=
  movers.map fun m =>
    let x1 := m.x + m.vx * dt
    if |x1 - m.home| > m.range then { m with x := x1, vx := -m.vx }
    else { m with x := x1 }

/-- `_resolve_collisions(axis="x")` (lines 694-703): one pass over
`platforms + movers`; on overlap push to the near edge in the direction
of travel and zero the horizontal velocity.  State is `(px, vx)`. -/
def resolve_x (rects : List Rect) (py : ℚ) (px vx : ℚ) : ℚ × ℚ :=
  rects.foldl
    (fun st r =>
      if intersectB st.1 py pw ph r then
        (if st.2 > 0 then r.x - pw
         else if st.2 < 0 then r.x + r.w
         else st.1, 0)
      else st)
    (px, vx)

/-- The body of the `axis="y"` loop of `_resolve_collisions`
(lines 704-711), for one rectangle: downward overlap lands on the top
(sets `on_ground`), upward overlap bumps the head; both zero the
vertical velocity.  State is `(py, vy, on_ground)`. -/
def resolve_y_step (px : ℚ) (st : ℚ × ℚ × Bool) (r : Rect) : ℚ × ℚ × Bool :=
  if intersectB px st.1 pw ph r then
    if st.2.1 > 0 then (r.y - ph, 0, true)
    else if st.2.1 < 0 then (r.y + r.h, 0, st.2.2)
    else st
  else st

/-- `_resolve_collisions(axis="y")` (lines 694-711): one pass of
`resolve_y_step` over `platforms + movers`. -/
def resolve_y (rects : List Rect) (px : ℚ) (py vy : ℚ) (og : Bool) :
    ℚ × ℚ × Bool :=
  rects.foldl (resolve_y_step px) (py, vy, og)

/-- `_carry_velocity_from_mover` (lines 713-720): the velocity of the
first mover whose top surface is within 2 units of the body's feet and
horizontally overlapping, else 0. -/
def carry_velocity (movers : List Mover) (px py : ℚ) : ℚ :=
  match movers.find? (fun m =>
      decide (|py + ph - m.y| ≤ 2) &&
      !(decide (px + pw ≤ m.x) || decide (px ≥ m.x + m.w))) with
  | some m => m.vx
  | none => 0

/-- The body of the spring loop (lines 640-647) for one spring: when the
spring overlaps the body and the current vertical velocity is
non-negative, set the velocity to the spring impulse
`SPRING_BOOST * (1 / max(0.2, gravity/1500))`.  The `Nat` component
counts executions of the launch branch (the `Spring launched!` event of
line 647). -/
def spring_step (px py : ℚ) (st : ℚ × Nat) (sp : Rect) : ℚ × Nat :=
  if intersectB px py pw ph sp then
    if st.1 ≥ 0 then
      (SPRING_BOOST * (1 / max (2/10) (gravity / 1500)), st.2 + 1)
    else st
  else st

/-- The spring loop of `_update` (lines 639-647). -/
def spring_pass (springs : List Rect) (px py vy : ℚ) : ℚ × Nat :=
  springs.foldl (spring_step px py) (vy, 0)

/-- The coin loop (lines 649-658): mark the first uncollected coin whose
circle overlaps the body as collected and stop (`break`).  Returns the
new list and whether a coin was collected. -/
def collect_coins (px py : ℚ) : List Coin → List Coin × Bool
  | [] => ([], false)
  | c :: t =>
    if c.collected then
      let r := collect_coins px py t
      (c :: r.1, r.2)
    else if circle_rect_overlap c.x c.y c.r px py pw ph then
      ({ c with collected := true } :: t, true)
    else
      let r := collect_coins px py t
      (c :: r.1, r.2)

/-- Line 681: the score multiplier, `2` while the buff is active
(`now < buff_end_time`), else `1`. -/
def bonus_mult (now buff_end : ℚ) : ℚ := if now < buff_end then 2 else 1

/-- Lines 599-633 of `_update`: velocities, the jump, mover advancement,
axis-separated integration and collision resolution, and the carry from
a mover the body rests on.  Clears the jump request (line 618). -/
def phase_physics (s : GameState) (dt : ℚ) : GameState :=
  let vx1 := step_vx s dt
  let vy1 := s.vy + gravity * dt
  let touching := orb_touch_any s.orbs s.px s.py
  let mult := jump_mult s.orbs s.px s.py
  let vy2 := apply_jump vy1 s.want_jump s.on_ground touching mult
  let movers1 := movers_step s.movers dt
  let rects := s.platforms ++ movers1.map Mover.toRect
  let px1 := s.px + vx1 * dt
  let rx := resolve_x rects s.py px1 vx1
  let py1 := s.py + vy2 * dt
  let ry := resolve_y rects rx.1 py1 vy2 false
  let carry := carry_velocity movers1 rx.1 ry.1
  let px3 := if carry ≠ 0 ∧ ry.2.2 = true then rx.1 + carry * dt else rx.1
  { s with
      px := px3, py := ry.1, vx := rx.2, vy := ry.2.1,
      on_ground := ry.2.2, movers := movers1, want_jump := false }

/-- Lines 635-661 of `_update`: spike contact, the spring loop, the coin
loop (first coin collected grants `+150` and restarts the buff window),
and the fall-out-of-bounds check. -/
def phase_hazards (s : GameState) (now : ℚ) : GameState :=
  let dead1 := s.dead || s.spikes.any (fun sp => intersectB s.px s.py pw ph sp)
  let spr := spring_pass s.springs s.px s.py s.vy
  let cc := collect_coins s.px s.py s.coins
  let buff1 := if cc.2 then now + BUFF_DURATION_SECONDS else s.buff_end_time
  let score1 := if cc.2 then s.score + 150 else s.score
  let dead2 := dead1 || decide (s.py > kill_y)
  { s with
      dead := dead2, vy := spr.1, coins := cc.1,
      buff_end_time := buff1, score := score1 }

/-- Lines 663-678 of `_update`: exponential camera smoothing, then the
sidescroller auto-scroll with its left-wall push and crush check. -/
def phase_camera (s : GameState) (dt : ℚ) : GameState :=
  let tx := s.px - s.w * (4/10)
  let ty := s.py - s.h * (6/10)
  let cam_x1 := s.cam_x + (tx - s.cam_x) * min 1 (8 * dt)
  let cam_y1 := s.cam_y + (ty - s.cam_y) * min 1 (8 * dt)
  let cam_x2 := if s.sidescroller then cam_x1 + scroll_speed s * dt else cam_x1
  let cam_y2 := if s.sidescroller then
      cam_y1 + ((s.py - s.h * (6/10)) - cam_y1) * min 1 (6 * dt)
    else cam_y1
  let pushed := s.sidescroller && decide (s.px < cam_x2)
  let px4 := if pushed then cam_x2 else s.px
  let rects := s.platforms ++ s.movers.map Mover.toRect
  let dead3 := s.dead ||
    (pushed && rects.any (fun r => intersectB px4 s.py pw ph r))
  let vx3 := if pushed && decide (px4 > s.px) && decide (s.vx < 0) then 0
             else s.vx
  { s with px := px4, vx := vx3, dead := dead3, cam_x := cam_x2, cam_y := cam_y2 }

/-- Lines 680-684 of `_update`: the session score, computed from the
body's position and the elapsed time, doubled while the buff is active,
and kept monotone through `max`. -/
def phase_score (s : GameState) (now : ℚ) : GameState :=
  let bonus := bonus_mult now s.buff_end_time
  let computed := pyInt (s.px * (1/10) + s.time_alive * 3)
  let computed2 := pyInt ((computed : ℚ) * bonus)
  { s with score := max s.score computed2 }

/-- `_update` up to (but excluding) the chunk-extension check of lines
686-687: physics, collisions, hazards, pickups, kill plane, camera,
sidescroller wall and scoring, in source order. -/
def update_pre (s : GameState) (dt now : ℚ) : GameState :=
  phase_score (phase_camera (phase_hazards (phase_physics s dt) now) dt) now

/-- `_update` (lines 598-692): the pre-chunk step followed by the
frontier-extension check of lines 686-687, which appends one random
chunk from the global stream `rng` when
`cam_x + w * 1.5 > level_extent_x`. -/
def update (s : GameState) (dt now : ℚ) (rng : Nat) : GameState × Nat :=
  let s1 := update_pre s dt now
  if s1.cam_x + s1.w * (3/2) > s1.level_extent_x then add_level_chunk s1 rng
  else (s1, rng)

/-! ## Seeded deterministic level generation
(`generate_level_by_index`, lines 833-845) -/

/-- A generated level platform dict `{x, y, w, h, spikes?}`; the
optional `spikes` key is `false` when absent. -/
structure GRect where
  x : ℚ
  y : ℚ
  w : ℚ
  h : ℚ
  spikes : Bool
  deriving DecidableEq, Repr

/-- The seeded-level export object
`{platforms, finish, width, ground_y, seed}` (line 845). -/
structure SeededLevel where
  platforms : List GRect
  finish_x : Int
  finish_y : Int
  finish_size : Int
  width : Int
  ground_y : Int
  seed : Int
  deriving DecidableEq, Repr

/-- The `while x < width - 200` loop of lines 837-843: append a platform
of random width, occasionally a spike strip, and advance `x` by
width-plus-gap. -/
def gen_loop (width ground_y : Int) (x : Int) (rng : Nat) (acc : List GRect) :
    List GRect :=
  if h : x < width - 200 then
    let rw := randint rng 120 320
    let rg := randint rw.2 40 160
    let rd := randint rg.2 (-120) 120
    let py := ground_y + rd.1
    let acc1 := acc ++ [⟨(x : ℚ), (py : ℚ), (rw.1 : ℚ), 48, false⟩]
    let rs := randfloat rd.2
    if rs.1 < 22/100 then
      let su := uniformQ rs.2 ((2/10) * (rw.1 : ℚ)) ((8/10) * (rw.1 : ℚ))
      let sw := randint su.2 40 80
      gen_loop width ground_y (x + rw.1 + rg.1) sw.2
        (acc1 ++ [⟨(x : ℚ) + su.1, (py : ℚ) - 20, (sw.1 : ℚ), 20, true⟩])
    else
      gen_loop width ground_y (x + rw.1 + rg.1) rs.2 acc1
  else acc
termination_by (width - 200 - x).toNat
decreasing_by
  · have h1 := randint_lb rng 120 320
    have h2 := randint_lb (randint rng 120 320).2 40 160
    simp_wf
    omega
  · have h1 := randint_lb rng 120 320
    have h2 := randint_lb (randint rng 120 320).2 40 160
    simp_wf
    omega

/-- `generate_level_by_index(idx, width, ground_y)` (lines 833-845): a
local generator seeded with `idx + 12345`, a fixed starting platform, the
generation loop, and the Finish square near the right end.  The result is
a pure function of `(idx, width, ground_y)`. -/
def generate_level_by_index (idx width ground_y : Int) : SeededLevel :=
  let rng := seedOf (idx + 12345)
  let platforms0 : List GRect := [⟨0, (ground_y : ℚ), 300, 40, false⟩]
  { platforms := gen_loop width ground_y 320 rng platforms0
    finish_x := width - 80
    finish_y := ground_y - 80
    finish_size := 34
    width := width
    ground_y := ground_y
    seed := idx }

/-! ## Seeded level play (`LevelPlayMode`, lines 847-913) -/

/-- `LevelPlayMode` state: the inherited `ImageWalkerMode` state plus the
Finish square `{x, y, size}` and a completion flag standing for the
blocking `_level_complete` screen. -/
structure LPState where
  base : GameState
  fx : ℚ
  fy : ℚ
  fsize : Int
  finished : Bool
  deriving DecidableEq, Repr

/-- `LevelPlayMode._update` (lines 865-871): run the inherited
`ImageWalkerMode._update` (chunk extension included), then check the
body against the Finish square. -/
def level_play_update (lp : LPState) (dt now : ℚ) (rng : Nat) :
    LPState × Nat :=
  let u := update lp.base dt now rng
  let b := u.1
  let hit := (b.px < lp.fx + (lp.fsize : ℚ)) && (b.px + pw > lp.fx) &&
             (b.py < lp.fy + (lp.fsize : ℚ)) && (b.py + ph > lp.fy)
  ({ lp with base := b, finished := lp.finished || hit }, u.2)

/-! ## Persistence (`load_coins_data`, lines 54-62)

The save file's content is modelled as the outcome of
`open` + `json.load`: either an exception (missing permissions,
unreadable bytes, malformed JSON) or a JSON value.  Python's `float()`
on a JSON value is modelled for numeric and boolean values; a
non-numeric value makes it raise, which the `except` clause of the
source maps to the default state.  (Numeric strings, which Python's
`float()` would parse, are not modelled; no claim exercises them.) -/

/-- A JSON-decoded Python value. -/
inductive PyVal where
  | int (n : Int)
  | float (q : ℚ)
  | str (s : String)
  | bool (b : Bool)
  | list (l : List PyVal)
  | dict (l : List (String × PyVal))
  | none
  deriving Repr

/-- `data.get(k, dflt)` on a decoded JSON dict. -/
def dictGet (d : List (String × PyVal)) (k : String) (dflt : PyVal) : PyVal :=
  match d.lookup k with
  | some v => v
  | Option.none => dflt

/-- Python `float()` on a JSON value (raises on non-numeric values). -/
def pyFloatOf : PyVal → Except Unit ℚ
  | .int n => .ok (n : ℚ)
  | .float q => .ok q
  | .bool b => .ok (if b then 1 else 0)
  | _ => .error ()

/-- The result shape of `load_coins_data`:
`{"coins": ..., "buff_end_time": ...}`. -/
structure CoinsData where
  coins : PyVal
  buff_end_time : ℚ
  deriving Repr

/-- The `try` block of `load_coins_data` (lines 55-59): propagates every
exception; `ok Option.none` means the block fell through (file absent)
to the default return of line 62. -/
def load_try (ex : Bool) (parse : Except Unit PyVal) :
    Except Unit (Option CoinsData) :=
  if ex then
    match parse with
    | .error e => .error e
    | .ok (.dict d) =>
      match pyFloatOf (dictGet d "buff_end_time" (.float 0)) with
      | .error e => .error e
      | .ok q => .ok (some ⟨dictGet d "coins" (.list []), q⟩)
    | .ok _ => .error ()
  else .ok Option.none

/-- `load_coins_data` (lines 54-62): the `try` block with its `except`
clause; every failure path yields the empty default state. -/
def load_coins_data (ex : Bool) (parse : Except Unit PyVal) : CoinsData :=
  match load_try ex parse with
  | .ok (some r) => r
  | .ok Option.none => ⟨.list [], 0⟩
  | .error _ => ⟨.list [], 0⟩

/-! ## Specification-side predicates and concrete states -/

/-- The coin-spacing invariant of the spec: every pair of simultaneously
uncollected coins is at center distance at least 64 (stated on squared
distances, as the source compares them). -/
def coinsSpaced (coins : List Coin) : Prop :=
  coins.Pairwise fun a b =>
    a.collected = false → b.collected = false →
      (a.x - b.x) * (a.x - b.x) + (a.y - b.y) * (a.y - b.y) ≥ 64 * 64

/-- Stated from the spec's words for claim C3, to be compared with the
code's scoring: `max(previousScore, floor((x*0.1 + elapsedTime*3) *
buffMultiplier))`. -/
def spec_score_claim (prev : Int) (x t mult : ℚ) : Int :=
  max prev ⌊(x * (1/10) + t * 3) * mult⌋

/-- A minimal endless-mode session state for concrete instances:
stationary body at the origin, empty entity lists, frontier far ahead of
the camera. -/
def baseState : GameState :=
  { px := 0, py := 0, vx := 0, vy := 0, on_ground := false, dead := false,
    platforms := [], movers := [], spikes := [], orbs := [], springs := [],
    coins := [], hold_left := false, hold_right := false, want_jump := false,
    time_alive := 0, score := 0, cam_x := 0, cam_y := 0,
    level_extent_x := 1000000, ground_y := 400, buff_end_time := 0,
    w := 1000, h := 700, sidescroller := false, next_coin_id := 0 }

/-- Concrete state for claim C2: the camera rests at its fixed point
(`cam_x = px - 0.4*w`), and the frontier sits exactly
`1.4 * screenWidth` beyond the camera right edge `cam_x + w`. -/
def stateC2 : GameState :=
  { baseState with px := 500, cam_x := 100, level_extent_x := 2500 }

/-- Concrete state for claim C3: body at `x = 5` (so the raw score base
is `0.5`), an active buff, previous score `0`. -/
def stateC3 : GameState :=
  { baseState with px := 5, buff_end_time := 100 }

/-- Concrete state for claim C6: one uncollected coin centered on the
body. -/
def stateC6 : GameState :=
  { baseState with coins := [⟨0, 18, 24, 10, false⟩] }

/-- Concrete `LevelPlayMode` state for claim C10's counterexample: the
tick starts with `cam_x + 1.5*w > level_extent_x` (margin 5), but the
camera retreats toward the far-behind player during the tick, so the
chunk check (which runs after the camera update) fails. -/
def baseCX : GameState :=
  { baseState with
      px := 800, py := -200, cam_x := 905, level_extent_x := 2400,
      platforms := [⟨0, 400, 300, 40⟩, ⟨320, 300, 200, 48⟩] }

def lpStateCX : LPState :=
  { base := baseCX, fx := 2320, fy := 320, fsize := 34, finished := false }

/-- Concrete `LevelPlayMode` state for claim C10's witness: the camera
rests at its fixed point with `cam_x + 1.5*w > level_extent_x`, so the
tick extends the imported level. -/
def baseWit : GameState :=
  { baseState with
      px := 1400, py := -200, cam_x := 1000, level_extent_x := 2400,
      platforms := [⟨0, 400, 300, 40⟩, ⟨320, 300, 200, 48⟩] }

def lpStateWit : LPState :=
  { base := baseWit, fx := 2320, fy := 320, fsize := 34, finished := false }

/-! ## Structural lemmas -/

theorem update_eq (s : GameState) (dt now : ℚ) (rng : Nat) :
    update s dt now rng =
      if (update_pre s dt now).cam_x + (update_pre s dt now).w * (3/2) >
          (update_pre s dt now).level_extent_x
      then add_level_chunk (update_pre s dt now) rng
      else (update_pre s dt now, rng) := rfl

theorem chunk_px (s : GameState) (rng : Nat) :
    (add_level_chunk s rng).1.px = s.px := rfl

theorem chunk_cam_x (s : GameState) (rng : Nat) :
    (add_level_chunk s rng).1.cam_x = s.cam_x := rfl

theorem chunk_score (s : GameState) (rng : Nat) :
    (add_level_chunk s rng).1.score = s.score := rfl

theorem chunk_buff (s : GameState) (rng : Nat) :
    (add_level_chunk s rng).1.buff_end_time = s.buff_end_time := rfl

theorem chunk_want_jump (s : GameState) (rng : Nat) :
    (add_level_chunk s rng).1.want_jump = s.want_jump := rfl

theorem chunk_w (s : GameState) (rng : Nat) :
    (add_level_chunk s rng).1.w = s.w := rfl

theorem chunk_extent (s : GameState) (rng : Nat) :
    (add_level_chunk s rng).1.level_extent_x =
      s.level_extent_x + ((randint rng 180 320).1 : ℚ) +
        ((randint (randint rng 180 320).2 80 200).1 : ℚ) := rfl

theorem chunk_extent_lt (s : GameState) (rng : Nat) :
    s.level_extent_x < (add_level_chunk s rng).1.level_extent_x := by
  rw [chunk_extent]
  have h1 : (180 : Int) ≤ (randint rng 180 320).1 := randint_lb _ _ _
  have h2 : (80 : Int) ≤ (randint (randint rng 180 320).2 80 200).1 :=
    randint_lb _ _ _
  have h1q : (180 : ℚ) ≤ ((randint rng 180 320).1 : ℚ) := by exact_mod_cast h1
  have h2q : (80 : ℚ) ≤ ((randint (randint rng 180 320).2 80 200).1 : ℚ) := by
    exact_mod_cast h2
  linarith

theorem chunk_platforms_len (s : GameState) (rng : Nat) :
    (add_level_chunk s rng).1.platforms.length = s.platforms.length + 1 := by
  have h : (add_level_chunk s rng).1.platforms =
      s.platforms ++
        [⟨s.level_extent_x,
          (s.ground_y : ℚ) +
            ((randint (randint (randint rng 180 320).2 80 200).2 (-140) 140).1 : ℚ),
          ((randint rng 180 320).1 : ℚ), 48⟩] := rfl
  rw [h]
  simp

theorem generate_coin_count (coins : List Coin) (cid : Int) (x y : ℚ) :
    countCollected (generate_coin coins cid x y).2.1 = countCollected coins := by
  unfold generate_coin
  split
  · rfl
  · simp [countCollected, List.countP_append]

theorem chunk_coin_roll_count (coins : List Coin) (cid : Int) (extent py : ℚ)
    (w : Int) (rng : Nat) :
    countCollected (chunk_coin_roll coins cid extent py w rng).1 =
      countCollected coins := by
  simp only [chunk_coin_roll]
  split
  · exact generate_coin_count _ _ _ _
  · rfl

theorem chunk_count_collected (s : GameState) (rng : Nat) :
    countCollected (add_level_chunk s rng).1.coins = countCollected s.coins :=
  chunk_coin_roll_count _ _ _ _ _ _

theorem update_px (s : GameState) (dt now : ℚ) (rng : Nat) :
    (update s dt now rng).1.px = (update_pre s dt now).px := by
  rw [update_eq]; split
  · exact chunk_px _ _
  · rfl

theorem update_cam_x (s : GameState) (dt now : ℚ) (rng : Nat) :
    (update s dt now rng).1.cam_x = (update_pre s dt now).cam_x := by
  rw [update_eq]; split
  · exact chunk_cam_x _ _
  · rfl

theorem update_score (s : GameState) (dt now : ℚ) (rng : Nat) :
    (update s dt now rng).1.score = (update_pre s dt now).score := by
  rw [update_eq]; split
  · exact chunk_score _ _
  · rfl

theorem update_buff (s : GameState) (dt now : ℚ) (rng : Nat) :
    (update s dt now rng).1.buff_end_time =
      (update_pre s dt now).buff_end_time := by
  rw [update_eq]; split
  · exact chunk_buff _ _
  · rfl

theorem update_want_jump (s : GameState) (dt now : ℚ) (rng : Nat) :
    (update s dt now rng).1.want_jump = false := by
  rw [update_eq]; split
  · exact chunk_want_jump _ _
  · rfl

theorem update_count_collected (s : GameState) (dt now : ℚ) (rng : Nat) :
    countCollected (update s dt now rng).1.coins =
      countCollected (update_pre s dt now).coins := by
  rw [update_eq]; split
  · exact chunk_count_collected _ _
  · rfl

theorem update_pre_coins (s : GameState) (dt now : ℚ) :
    (update_pre s dt now).coins =
      (collect_coins (phase_physics s dt).px (phase_physics s dt).py s.coins).1 :=
  rfl

theorem update_pre_buff (s : GameState) (dt now : ℚ) :
    (update_pre s dt now).buff_end_time =
      if (collect_coins (phase_physics s dt).px (phase_physics s dt).py s.coins).2
      then now + BUFF_DURATION_SECONDS else s.buff_end_time := rfl

theorem update_pre_score (s : GameState) (dt now : ℚ) :
    (update_pre s dt now).score =
      max (if (collect_coins (phase_physics s dt).px (phase_physics s dt).py
                s.coins).2
           then s.score + 150 else s.score)
        (pyInt
          ((pyInt ((update_pre s dt now).px * (1/10) + s.time_alive * 3) : ℚ) *
            bonus_mult now (update_pre s dt now).buff_end_time)) := rfl

theorem update_pre_extent (s : GameState) (dt now : ℚ) :
    (update_pre s dt now).level_extent_x = s.level_extent_x := rfl

theorem update_pre_w (s : GameState) (dt now : ℚ) :
    (update_pre s dt now).w = s.w := rfl

theorem update_pre_platforms (s : GameState) (dt now : ℚ) :
    (update_pre s dt now).platforms = s.platforms := rfl

theorem collect_coins_count (px py : ℚ) (l : List Coin) :
    countCollected (collect_coins px py l).1 =
      countCollected l + (if (collect_coins px py l).2 then 1 else 0) := by
  induction l with
  | nil => simp [collect_coins, countCollected]
  | cons c t ih =>
    by_cases hc : c.collected
    · simp only [collect_coins, hc, if_true, countCollected, List.countP_cons]
      simp only [countCollected] at ih
      omega
    · by_cases ho : circle_rect_overlap c.x c.y c.r px py pw ph
      · simp [collect_coins, hc, ho, countCollected, List.countP_cons]
      · simp only [collect_coins, hc, ho, if_false, Bool.false_eq_true,
          countCollected, List.countP_cons]
        simp only [countCollected] at ih
        simp [hc, ih]

theorem level_play_base (lp : LPState) (dt now : ℚ) (rng : Nat) :
    (level_play_update lp dt now rng).1.base = (update lp.base dt now rng).1 :=
  rfl


/-- C1 -/
theorem seeded_generation_deterministic (s1 s2 width gy : Int) (h : s1 = s2) :
    (generate_level_by_index s1 width gy).platforms =
      (generate_level_by_index s2 width gy).platforms ∧
    (generate_level_by_index s1 width gy).finish_x =
      (generate_level_by_index s2 width gy).finish_x ∧
    (generate_level_by_index s1 width gy).finish_y =
      (generate_level_by_index s2 width gy).finish_y ∧
    (generate_level_by_index s1 width gy).finish_size =
      (generate_level_by_index s2 width gy).finish_size := by
  rw [h]
  exact ⟨rfl, rfl, rfl, rfl⟩

theorem seeded_generation_deterministic_witness :
    (7 : Int) = 7 ∧
    (generate_level_by_index 7 2400 400).platforms =
      (generate_level_by_index 7 2400 400).platforms :=
  ⟨rfl, (seeded_generation_deterministic 7 7 2400 400 rfl).1⟩

/-- C9 -/
theorem load_coins_data_recovery :
    (∀ parse, load_coins_data false parse = ⟨.list [], 0⟩) ∧
    (∀ e, load_coins_data true (.error e) = ⟨.list [], 0⟩) ∧
    (∀ v, (∀ d, v ≠ .dict d) → load_coins_data true (.ok v) = ⟨.list [], 0⟩) ∧
    (∀ d, pyFloatOf (dictGet d "buff_end_time" (.float 0)) = .error () →
      load_coins_data true (.ok (.dict d)) = ⟨.list [], 0⟩) ∧
    (∀ d q, pyFloatOf (dictGet d "buff_end_time" (.float 0)) = .ok q →
      load_coins_data true (.ok (.dict d)) = ⟨dictGet d "coins" (.list []), q⟩) := by
  refine ⟨fun parse => rfl, fun e => rfl, ?_, ?_, ?_⟩
  · intro v h
    cases v
    case dict d => exact absurd rfl (h d)
    all_goals rfl
  · intro d h
    simp [load_coins_data, load_try, h]
  · intro d q h
    simp [load_coins_data, load_try, h]

theorem load_coins_data_recovery_witness :
    pyFloatOf (dictGet [("coins", .list [.int 1]), ("buff_end_time", .float (5/2))]
      "buff_end_time" (.float 0)) = .ok (5/2) ∧
    load_coins_data true
      (.ok (.dict [("coins", .list [.int 1]), ("buff_end_time", .float (5/2))])) =
      ⟨.list [.int 1], 5/2⟩ := by
  have hb : (("buff_end_time" == "coins") : Bool) = false := rfl
  have hcc : (("coins" == "coins") : Bool) = true := rfl
  have h : pyFloatOf (dictGet [("coins", PyVal.list [.int 1]),
      ("buff_end_time", PyVal.float (5/2))] "buff_end_time" (.float 0)) =
      .ok (5/2) := by
    simp [dictGet, List.lookup, hb, pyFloatOf]
  refine ⟨h, ?_⟩
  have h2 := load_coins_data_recovery.2.2.2.2
    [("coins", PyVal.list [.int 1]), ("buff_end_time", PyVal.float (5/2))] (5/2) h
  rw [h2]
  simp [dictGet, List.lookup, hcc]


/-- C5 -/
theorem generate_coin_spacing (coins : List Coin) (cid : Int) (x y : ℚ)
    (h : coinsSpaced coins) :
    coinsSpaced (generate_coin coins cid x y).2.1 ∧
    (coin_blocked coins x y = true →
      (generate_coin coins cid x y).2.1 = coins ∧
        (generate_coin coins cid x y).1 = none) ∧
    (coin_blocked coins x y = false →
      ∀ c ∈ coins, c.collected = false →
        (c.x - x) * (c.x - x) + (c.y - y) * (c.y - y) ≥ 64 * 64) := by
  by_cases hb : coin_blocked coins x y = true
  · refine ⟨?_, fun _ => ⟨?_, ?_⟩, fun hc => absurd hb (by simp [hc])⟩
    · simp only [generate_coin, hb, if_true]
      exact h
    · simp only [generate_coin, hb, if_true]
    · simp only [generate_coin, hb, if_true]
  · have hb' : coin_blocked coins x y = false := by
      simpa using hb
    have hfar : ∀ c ∈ coins, c.collected = false →
        (c.x - x) * (c.x - x) + (c.y - y) * (c.y - y) ≥ 64 * 64 := by
      intro c hc hcol
      simp only [coin_blocked, List.any_eq_true, Bool.and_eq_true,
        Bool.not_eq_true', decide_eq_true_eq, not_exists, not_and] at hb
      have := hb c hc
      rw [hcol] at this
      have h2 := this rfl
      linarith [h2]
    refine ⟨?_, fun hbt => absurd hbt (by simp [hb']), fun _ => hfar⟩
    simp only [generate_coin, hb', Bool.false_eq_true, if_false]
    rw [coinsSpaced, List.pairwise_append]
    refine ⟨h, List.pairwise_singleton _ _, ?_⟩
    intro a ha b hbm
    simp only [List.mem_singleton] at hbm
    subst hbm
    intro hacol _
    simpa using hfar a ha hacol

theorem generate_coin_spacing_witness :
    coinsSpaced [(⟨0, 0, 0, 10, false⟩ : Coin)] ∧
    coinsSpaced (generate_coin [(⟨0, 0, 0, 10, false⟩ : Coin)] 1 100 0).2.1 := by
  have h : coinsSpaced [(⟨0, 0, 0, 10, false⟩ : Coin)] := by
    simp [coinsSpaced]
  exact ⟨h, (generate_coin_spacing [(⟨0, 0, 0, 10, false⟩ : Coin)] 1 100 0 h).1⟩


theorem orb_touch_imp_any (orbs : List Orb) (px py : ℚ) (t : OrbType)
    (h : orb_touch orbs px py t = true) : orb_touch_any orbs px py = true := by
  simp only [orb_touch, orb_touch_any, List.any_eq_true, Bool.and_eq_true,
    decide_eq_true_eq] at *
  obtain ⟨o, ho, _, hov⟩ := h
  exact ⟨o, ho, hov⟩

/-- C7 -/
theorem jump_consumption (orbs : List Orb) (px py vy : ℚ) (want og : Bool) :
    (want = true → (og = true ∨ orb_touch_any orbs px py = true) →
      apply_jump vy want og (orb_touch_any orbs px py) (jump_mult orbs px py) =
        -jump_speed *
          (if orb_touch orbs px py .high then 135/100
           else if orb_touch orbs px py .normal then 1
           else if orb_touch orbs px py .small then 6/10
           else 1)) ∧
    (∀ s dt now rng, (update s dt now rng).1.want_jump = false) := by
  constructor
  · intro hw hor
    have hcond : (want && (og || orb_touch_any orbs px py)) = true := by
      rcases hor with h | h <;> simp [hw, h]
    rw [apply_jump, if_pos hcond]
    congr 1
    by_cases hany : orb_touch_any orbs px py = true
    · rw [jump_mult, if_pos hany]
    · have hf : ∀ t, orb_touch orbs px py t = false := by
        intro t
        by_contra hc
        exact hany (orb_touch_imp_any orbs px py t (by simpa using hc))
      rw [jump_mult, if_neg hany, hf .high, hf .normal, hf .small]
      simp
  · intro s dt now rng
    exact update_want_jump s dt now rng

theorem jump_consumption_witness :
    apply_jump 0 true true (orb_touch_any [(⟨18, 24, 14, .high⟩ : Orb)] 0 0)
      (jump_mult [(⟨18, 24, 14, .high⟩ : Orb)] 0 0) = -jump_speed * (135/100) ∧
    (update baseState (16/1000) 0 0).1.want_jump = false := by
  have hh : orb_touch [(⟨18, 24, 14, OrbType.high⟩ : Orb)] 0 0 .high = true := by
    simp only [orb_touch, List.any_eq_true, List.mem_singleton]
    refine ⟨⟨18, 24, 14, .high⟩, rfl, ?_⟩
    simp only [circle_rect_overlap, pw, ph, Bool.and_eq_true, decide_eq_true_eq]
    norm_num
  have h1 := (jump_consumption [(⟨18, 24, 14, .high⟩ : Orb)] 0 0 0 true true).1
    rfl (Or.inl rfl)
  rw [h1, if_pos hh]
  exact ⟨rfl, (jump_consumption [] 0 0 0 true true).2 baseState (16/1000) 0 0⟩

theorem spring_boost_value :
    SPRING_BOOST * (1 / max (2/10) (gravity / 1500)) = -760 := by
  rw [SPRING_BOOST, gravity]
  rw [show ((1500 : ℚ) / 1500) = 1 by norm_num]
  rw [max_eq_right (by norm_num : (2/10 : ℚ) ≤ 1)]
  norm_num

theorem spring_fold_neg (px py : ℚ) (springs : List Rect) (vy : ℚ) (c : Nat)
    (h : vy < 0) :
    springs.foldl (spring_step px py) (vy, c) = (vy, c) := by
  induction springs with
  | nil => rfl
  | cons sp t ih =>
    rw [List.foldl_cons]
    have hstep : spring_step px py (vy, c) sp = (vy, c) := by
      simp only [spring_step]
      split
      · rw [if_neg (not_le.mpr h)]
      · rfl
    rw [hstep, ih]

theorem spring_fold_clear (px py : ℚ) (springs : List Rect) (vy : ℚ) (c : Nat)
    (h : ∀ sp ∈ springs, intersectB px py pw ph sp = false) :
    springs.foldl (spring_step px py) (vy, c) = (vy, c) := by
  induction springs with
  | nil => rfl
  | cons sp t ih =>
    rw [List.foldl_cons]
    have hstep : spring_step px py (vy, c) sp = (vy, c) := by
      simp only [spring_step, h sp (List.mem_cons_self sp t), Bool.false_eq_true,
        if_false]
    rw [hstep]
    exact ih fun q hq => h q (List.mem_cons_of_mem sp hq)

theorem spring_fold_launch (px py : ℚ) (springs : List Rect) (vy : ℚ) (c : Nat)
    (hv : 0 ≤ vy) (hov : ∃ sp ∈ springs, intersectB px py pw ph sp = true) :
    springs.foldl (spring_step px py) (vy, c) = (-760, c + 1) := by
  induction springs with
  | nil => exact absurd hov (by simp)
  | cons sp t ih =>
    rw [List.foldl_cons]
    by_cases hsp : intersectB px py pw ph sp = true
    · have hstep : spring_step px py (vy, c) sp =
          (SPRING_BOOST * (1 / max (2/10) (gravity / 1500)), c + 1) := by
        simp only [spring_step, hsp, if_true]
        rw [if_pos hv]
      rw [hstep, spring_boost_value, spring_fold_neg px py t _ _ (by norm_num)]
    · have hstep : spring_step px py (vy, c) sp = (vy, c) := by
        simp only [spring_step, hsp]
        rfl
      rw [hstep]
      refine ih ?_
      obtain ⟨q, hq, hqov⟩ := hov
      rcases List.mem_cons.mp hq with rfl | hqt
      · exact absurd hqov hsp
      · exact ⟨q, hqt, hqov⟩

/-- C8 -/
theorem spring_launch (springs : List Rect) (px py vy : ℚ) :
    (spring_pass springs px py vy).2 ≤ 1 ∧
    (0 ≤ vy → (∃ sp ∈ springs, intersectB px py pw ph sp = true) →
      spring_pass springs px py vy = (-760, 1)) := by
  constructor
  · by_cases hv : 0 ≤ vy
    · by_cases hov : ∃ sp ∈ springs, intersectB px py pw ph sp = true
      · rw [spring_pass, spring_fold_launch px py springs vy 0 hv hov]
      · rw [spring_pass, spring_fold_clear px py springs vy 0 ?_]
        · norm_num
        · intro sp hsp
          by_contra hc
          exact hov ⟨sp, hsp, by simpa using hc⟩
    · rw [spring_pass, spring_fold_neg px py springs vy 0 (lt_of_not_le hv)]
      norm_num
  · intro hv hov
    rw [spring_pass, spring_fold_launch px py springs vy 0 hv hov]

theorem spring_launch_witness :
    spring_pass [(⟨0, 0, 48, 12⟩ : Rect)] 0 0 50 = (-760, 1) := by
  refine (spring_launch [(⟨0, 0, 48, 12⟩ : Rect)] 0 0 50).2 (by norm_num)
    ⟨⟨0, 0, 48, 12⟩, List.mem_singleton_self _, ?_⟩
  simp only [intersectB, pw, ph, Bool.and_eq_true, decide_eq_true_eq]
  norm_num


/-- C6 -/
theorem coin_buff_timing (s : GameState) (dt now : ℚ) (rng : Nat)
    (h : countCollected s.coins < countCollected (update s dt now rng).1.coins) :
    (update s dt now rng).1.buff_end_time = now + 60 ∧
    (∀ t, now ≤ t → t < now + 60 →
      bonus_mult t (update s dt now rng).1.buff_end_time = 2) ∧
    (∀ t, now + 60 ≤ t →
      bonus_mult t (update s dt now rng).1.buff_end_time = 1) := by
  have hc := update_count_collected s dt now rng
  rw [update_pre_coins, collect_coins_count] at hc
  have hhit : (collect_coins (phase_physics s dt).px (phase_physics s dt).py
      s.coins).2 = true := by
    by_contra hcf
    simp only [Bool.not_eq_true] at hcf
    rw [hcf, if_neg (by simp)] at hc
    rw [hc] at h
    omega
  have hbuff : (update s dt now rng).1.buff_end_time = now + 60 := by
    rw [update_buff, update_pre_buff, hhit, if_pos rfl, BUFF_DURATION_SECONDS]
  refine ⟨hbuff, ?_, ?_⟩
  · intro t _ h2
    rw [hbuff, bonus_mult, if_pos h2]
  · intro t h1
    rw [hbuff, bonus_mult, if_neg (not_lt.mpr h1)]

theorem coin_buff_timing_witness :
    (update stateC6 (16/1000) 0 0).1.buff_end_time = 0 + 60 ∧
    bonus_mult 30 (update stateC6 (16/1000) 0 0).1.buff_end_time = 2 ∧
    bonus_mult 60 (update stateC6 (16/1000) 0 0).1.buff_end_time = 1 := by
  have hhit : (collect_coins (phase_physics stateC6 (16/1000)).px
      (phase_physics stateC6 (16/1000)).py stateC6.coins).2 = true := by
    norm_num [phase_physics, step_vx, clamp, apply_jump, jump_mult, orb_touch_any,
      orb_touch, movers_step, resolve_x, resolve_y, resolve_y_step, carry_velocity,
      collect_coins, circle_rect_overlap, pw, ph, gravity, jump_speed, move_accel,
      max_speed, friction_air, friction_ground, stateC6, baseState, Mover.toRect]
  have h : countCollected stateC6.coins <
      countCollected (update stateC6 (16/1000) 0 0).1.coins := by
    rw [update_count_collected, update_pre_coins, collect_coins_count, hhit,
      if_pos rfl]
    norm_num
  have hmain := coin_buff_timing stateC6 (16/1000) 0 0 h
  exact ⟨hmain.1, hmain.2.1 30 (by norm_num) (by norm_num), hmain.2.2 60 (by norm_num)⟩

/-- C3 (amended) -/
theorem score_formula (s : GameState) (dt now : ℚ) (rng : Nat) :
    (update s dt now rng).1.score =
      max (s.score +
            150 * ((countCollected (update s dt now rng).1.coins : Int) -
                   (countCollected s.coins : Int)))
        (pyInt
          ((pyInt ((update s dt now rng).1.px * (1/10) + s.time_alive * 3) : ℚ) *
            bonus_mult now (update s dt now rng).1.buff_end_time)) := by
  rw [update_score, update_px, update_buff, update_count_collected,
    update_pre_coins, collect_coins_count, update_pre_score]
  congr 1
  cases hhit : (collect_coins (phase_physics s dt).px (phase_physics s dt).py
      s.coins).2
  · simp
  · simp only [if_pos rfl]
    push_cast
    ring

/-- C3 counterexample -/
theorem score_claim_counterexample :
    stateC3.score = 0 ∧ stateC3.time_alive = 0 ∧
    (update stateC3 (16/1000) 0 0).1.px = 5 ∧
    bonus_mult 0 (update stateC3 (16/1000) 0 0).1.buff_end_time = 2 ∧
    (update stateC3 (16/1000) 0 0).1.score = 0 ∧
    spec_score_claim stateC3.score 5 0 2 = 1 := by
  refine ⟨rfl, rfl, ?_, ?_, ?_, ?_⟩
  · rw [update_px]
    norm_num [update_pre, phase_physics, phase_hazards, phase_camera, phase_score,
      step_vx, clamp, apply_jump, jump_mult, orb_touch_any, orb_touch, movers_step,
      resolve_x, resolve_y, resolve_y_step, carry_velocity, spring_pass, spring_step,
      collect_coins, bonus_mult, pyInt, scroll_speed, circle_rect_overlap,
      BUFF_DURATION_SECONDS, kill_y, pw, ph, gravity, jump_speed, move_accel,
      max_speed, friction_air, friction_ground, stateC3, baseState, Mover.toRect]
  · rw [update_buff]
    norm_num [update_pre, phase_physics, phase_hazards, phase_camera, phase_score,
      step_vx, clamp, apply_jump, jump_mult, orb_touch_any, orb_touch, movers_step,
      resolve_x, resolve_y, resolve_y_step, carry_velocity, spring_pass, spring_step,
      collect_coins, bonus_mult, pyInt, scroll_speed, circle_rect_overlap,
      BUFF_DURATION_SECONDS, kill_y, pw, ph, gravity, jump_speed, move_accel,
      max_speed, friction_air, friction_ground, stateC3, baseState, Mover.toRect]
  · rw [update_score]
    norm_num [update_pre, phase_physics, phase_hazards, phase_camera, phase_score,
      step_vx, clamp, apply_jump, jump_mult, orb_touch_any, orb_touch, movers_step,
      resolve_x, resolve_y, resolve_y_step, carry_velocity, spring_pass, spring_step,
      collect_coins, bonus_mult, pyInt, scroll_speed, circle_rect_overlap,
      BUFF_DURATION_SECONDS, kill_y, pw, ph, gravity, jump_speed, move_accel,
      max_speed, friction_air, friction_ground, stateC3, baseState, Mover.toRect]
  · rw [spec_score_claim]
    norm_num [stateC3, baseState]


/-- C2 (amended) -/
theorem chunk_condition_iff (s : GameState) (dt now : ℚ) (rng : Nat) :
    s.level_extent_x < (update s dt now rng).1.level_extent_x ↔
      (update s dt now rng).1.cam_x + s.w * (3/2) > s.level_extent_x := by
  rw [update_cam_x, update_eq]
  by_cases hcond : (update_pre s dt now).cam_x + (update_pre s dt now).w * (3/2) >
      (update_pre s dt now).level_extent_x
  · rw [if_pos hcond]
    constructor
    · intro _
      rw [update_pre_w, update_pre_extent] at hcond
      exact hcond
    · intro _
      have hlt := chunk_extent_lt (update_pre s dt now) rng
      rwa [update_pre_extent] at hlt
  · rw [if_neg hcond]
    constructor
    · intro hlt
      have : (update_pre s dt now, rng).1.level_extent_x = s.level_extent_x :=
        update_pre_extent s dt now
      rw [this] at hlt
      exact absurd hlt (lt_irrefl _)
    · intro hr
      exfalso
      apply hcond
      rw [update_pre_w, update_pre_extent]
      exact hr

/-- C2 counterexample -/
theorem chunk_condition_counterexample :
    stateC2.level_extent_x = (stateC2.cam_x + stateC2.w) + (14/10) * stateC2.w ∧
    (update stateC2 (16/1000) 0 0).1.cam_x = stateC2.cam_x ∧
    (update stateC2 (16/1000) 0 0).1.level_extent_x = stateC2.level_extent_x ∧
    (update stateC2 (16/1000) 0 0).1.platforms.length =
      stateC2.platforms.length := by
  have hcam : (update_pre stateC2 (16/1000) 0).cam_x = 100 := by
    norm_num [update_pre, phase_physics, phase_hazards, phase_camera, phase_score,
      step_vx, clamp, apply_jump, jump_mult, orb_touch_any, orb_touch, movers_step,
      resolve_x, resolve_y, resolve_y_step, carry_velocity, spring_pass, spring_step,
      collect_coins, bonus_mult, pyInt, scroll_speed, circle_rect_overlap,
      BUFF_DURATION_SECONDS, kill_y, pw, ph, gravity, jump_speed, move_accel,
      max_speed, friction_air, friction_ground, stateC2, baseState, Mover.toRect]
  have hcond : ¬((update_pre stateC2 (16/1000) 0).cam_x +
      (update_pre stateC2 (16/1000) 0).w * (3/2) >
      (update_pre stateC2 (16/1000) 0).level_extent_x) := by
    rw [hcam, update_pre_w, update_pre_extent]
    norm_num [stateC2, baseState]
  refine ⟨by norm_num [stateC2, baseState], ?_, ?_, ?_⟩
  · rw [update_cam_x, hcam]
    norm_num [stateC2, baseState]
  · rw [update_eq, if_neg hcond]
    exact update_pre_extent stateC2 (16/1000) 0
  · rw [update_eq, if_neg hcond]
    rw [show (update_pre stateC2 (16/1000) 0, (0 : Nat)).1.platforms =
      stateC2.platforms from update_pre_platforms stateC2 (16/1000) 0]

/-- C10 (amended) -/
theorem level_play_chunk_extension (lp : LPState) (dt now : ℚ) (rng : Nat)
    (h : (level_play_update lp dt now rng).1.base.cam_x + lp.base.w * (3/2) >
      lp.base.level_extent_x) :
    (level_play_update lp dt now rng).1.base.platforms.length =
      lp.base.platforms.length + 1 ∧
    lp.base.level_extent_x <
      (level_play_update lp dt now rng).1.base.level_extent_x := by
  rw [level_play_base] at h ⊢
  rw [update_cam_x] at h
  rw [update_eq]
  have hcond : (update_pre lp.base dt now).cam_x +
      (update_pre lp.base dt now).w * (3/2) >
      (update_pre lp.base dt now).level_extent_x := by
    rw [update_pre_w, update_pre_extent]
    exact h
  rw [if_pos hcond]
  constructor
  · rw [chunk_platforms_len, update_pre_platforms]
  · have hlt := chunk_extent_lt (update_pre lp.base dt now) rng
    rwa [update_pre_extent] at hlt

/-- C10 counterexample -/
theorem level_play_claim_counterexample :
    lpStateCX.base.cam_x + lpStateCX.base.w * (3/2) >
      lpStateCX.base.level_extent_x ∧
    (level_play_update lpStateCX (16/1000) 0 0).1.base.platforms.length =
      lpStateCX.base.platforms.length ∧
    (level_play_update lpStateCX (16/1000) 0 0).1.base.level_extent_x =
      lpStateCX.base.level_extent_x := by
  have hbase : lpStateCX.base = baseCX := rfl
  have hcam : (update_pre baseCX (16/1000) 0).cam_x = 21009/25 := by
    norm_num [update_pre, phase_physics, phase_hazards, phase_camera, phase_score,
      step_vx, clamp, apply_jump, jump_mult, orb_touch_any, orb_touch, movers_step,
      resolve_x, resolve_y, resolve_y_step, carry_velocity, spring_pass, spring_step,
      collect_coins, bonus_mult, pyInt, scroll_speed, circle_rect_overlap,
      BUFF_DURATION_SECONDS, kill_y, pw, ph, gravity, jump_speed, move_accel,
      max_speed, friction_air, friction_ground, baseCX, baseState, Mover.toRect,
      intersectB]
  have hcond : ¬((update_pre baseCX (16/1000) 0).cam_x +
      (update_pre baseCX (16/1000) 0).w * (3/2) >
      (update_pre baseCX (16/1000) 0).level_extent_x) := by
    rw [hcam, update_pre_w, update_pre_extent]
    norm_num [baseCX, baseState]
  refine ⟨by norm_num [lpStateCX, baseCX, baseState], ?_, ?_⟩
  · rw [level_play_base, hbase, update_eq, if_neg hcond]
    rw [show (update_pre baseCX (16/1000) 0, (0 : Nat)).1.platforms =
      baseCX.platforms from update_pre_platforms baseCX (16/1000) 0]
  · rw [level_play_base, hbase, update_eq, if_neg hcond]
    exact update_pre_extent baseCX (16/1000) 0

theorem level_play_chunk_extension_witness :
    (level_play_update lpStateWit (16/1000) 0 0).1.base.platforms.length =
      lpStateWit.base.platforms.length + 1 := by
  have hbase : lpStateWit.base = baseWit := rfl
  have hcam : (update_pre baseWit (16/1000) 0).cam_x = 1000 := by
    norm_num [update_pre, phase_physics, phase_hazards, phase_camera, phase_score,
      step_vx, clamp, apply_jump, jump_mult, orb_touch_any, orb_touch, movers_step,
      resolve_x, resolve_y, resolve_y_step, carry_velocity, spring_pass, spring_step,
      collect_coins, bonus_mult, pyInt, scroll_speed, circle_rect_overlap,
      BUFF_DURATION_SECONDS, kill_y, pw, ph, gravity, jump_speed, move_accel,
      max_speed, friction_air, friction_ground, baseWit, baseState, Mover.toRect,
      intersectB]
  have h : (level_play_update lpStateWit (16/1000) 0 0).1.base.cam_x +
      lpStateWit.base.w * (3/2) > lpStateWit.base.level_extent_x := by
    rw [level_play_base, hbase, update_cam_x, hcam]
    norm_num [baseWit, baseState]
  exact (level_play_chunk_extension lpStateWit (16/1000) 0 0 h).1


theorem intersectB_false_of_no_x (px y : ℚ) (q : Rect)
    (h : ¬(px < q.x + q.w ∧ px + pw > q.x)) :
    intersectB px y pw ph q = false := by
  rw [intersectB]
  rcases not_and_or.mp h with h1 | h1 <;> simp [h1]

theorem resolve_y_step_skip (px : ℚ) (st : ℚ × ℚ × Bool) (r : Rect)
    (h : intersectB px st.1 pw ph r = false) : resolve_y_step px st r = st := by
  simp [resolve_y_step, h]

theorem resolve_y_fold_fixed (px : ℚ) (L : List Rect) (st : ℚ × ℚ × Bool)
    (h : ∀ q ∈ L, intersectB px st.1 pw ph q = false) :
    L.foldl (resolve_y_step px) st = st := by
  induction L with
  | nil => rfl
  | cons r t ih =>
    rw [List.foldl_cons, resolve_y_step_skip px st r (h r (List.mem_cons_self r t))]
    exact ih fun q hq => h q (List.mem_cons_of_mem r hq)

theorem resolve_y_step_resolves (px py vy : ℚ) (og : Bool) (p : Rect)
    (hvy : vy ≠ 0) (hint : intersectB px py pw ph p = true) :
    intersectB px (resolve_y_step px (py, vy, og) p).1 pw ph p = false := by
  rcases lt_trichotomy vy 0 with hlt | heq | hgt
  · have hstep : resolve_y_step px (py, vy, og) p = (p.y + p.h, 0, og) := by
      simp only [resolve_y_step, hint, if_true]
      rw [if_neg (by simpa using not_lt.mpr hlt.le), if_pos (by simpa using hlt)]
    rw [hstep]
    rw [intersectB]
    have hy : ¬(p.y + p.h < p.y + p.h) := lt_irrefl _
    simp [hy]
  · exact absurd heq hvy
  · have hstep : resolve_y_step px (py, vy, og) p = (p.y - ph, 0, true) := by
      simp only [resolve_y_step, hint, if_true]
      rw [if_pos (by simpa using hgt)]
    rw [hstep]
    rw [intersectB]
    have hy : ¬(p.y - ph + ph > p.y) := by
      rw [sub_add_cancel]
      exact lt_irrefl _
    simp [hy]

theorem resolve_y_aux (px : ℚ) (L : List Rect) (p : Rect) :
    ∀ (py vy : ℚ) (og : Bool), p ∈ L → vy ≠ 0 →
      (∀ q ∈ L, q ≠ p → ¬(px < q.x + q.w ∧ px + pw > q.x)) →
      intersectB px (L.foldl (resolve_y_step px) (py, vy, og)).1 pw ph p =
        false := by
  induction L with
  | nil =>
    intro py vy og hp
    exact absurd hp (List.not_mem_nil p)
  | cons r t ih =>
    intro py vy og hp hvy hx
    rw [List.foldl_cons]
    by_cases hrp : r = p
    · subst hrp
      by_cases hint : intersectB px py pw ph r = true
      · have hres := resolve_y_step_resolves px py vy og r hvy hint
        rw [resolve_y_fold_fixed px t _ ?_]
        · exact hres
        · intro q hq
          by_cases hqr : q = r
          · rw [hqr]
            exact hres
          · exact intersectB_false_of_no_x px _ q
              (hx q (List.mem_cons_of_mem r hq) hqr)
      · have hint' : intersectB px py pw ph r = false := by simpa using hint
        rw [resolve_y_step_skip px (py, vy, og) r hint']
        by_cases hpt : r ∈ t
        · exact ih py vy og hpt hvy
            fun q hq hqp => hx q (List.mem_cons_of_mem r hq) hqp
        · rw [resolve_y_fold_fixed px t _ ?_]
          · exact hint'
          · intro q hq
            have hqr : q ≠ r := fun he => hpt (he ▸ hq)
            exact intersectB_false_of_no_x px _ q
              (hx q (List.mem_cons_of_mem r hq) hqr)
    · have hskip := resolve_y_step_skip px (py, vy, og) r
        (intersectB_false_of_no_x px _ r (hx r (List.mem_cons_self r t)
          (fun he => hrp he)))
      rw [hskip]
      have hp' : p ∈ t := by
        rcases List.mem_cons.mp hp with he | ht
        · exact absurd he.symm hrp
        · exact ht
      exact ih py vy og hp' hvy fun q hq hqp => hx q (List.mem_cons_of_mem r hq) hqp

/-- C4 (amended) -/
theorem resolve_y_no_overlap (plats movs : List Rect) (p : Rect)
    (px py vy : ℚ) (og : Bool)
    (hp : p ∈ plats)
    (hvy : vy ≠ 0)
    (hx : ∀ q ∈ plats ++ movs, q ≠ p → ¬(px < q.x + q.w ∧ px + pw > q.x)) :
    intersectB px (resolve_y (plats ++ movs) px py vy og).1 pw ph p = false := by
  rw [resolve_y]
  exact resolve_y_aux px (plats ++ movs) p py vy og
    (List.mem_append_left movs hp) hvy hx

theorem resolve_y_no_overlap_witness :
    intersectB 0 (resolve_y ([(⟨0, 50, 200, 48⟩ : Rect)] ++ []) 0 40 50 false).1
      pw ph ⟨0, 50, 200, 48⟩ = false := by
  refine resolve_y_no_overlap [(⟨0, 50, 200, 48⟩ : Rect)] [] ⟨0, 50, 200, 48⟩
    0 40 50 false (List.mem_singleton_self _) (by norm_num) ?_
  intro q hq hqp
  exfalso
  apply hqp
  simpa using hq

/-- C4 counterexample -/
theorem resolve_y_claim_counterexample :
    ((⟨0, 0, 200, 48⟩ : Rect) ∈ [(⟨0, 50, 200, 48⟩ : Rect), ⟨0, 0, 200, 48⟩]) ∧
    intersectB 0
      (resolve_y [(⟨0, 50, 200, 48⟩ : Rect), ⟨0, 0, 200, 48⟩] 0 40 50 false).1
      pw ph ⟨0, 0, 200, 48⟩ = true := by
  refine ⟨by simp, ?_⟩
  norm_num [resolve_y, resolve_y_step, intersectB, pw, ph]

end ImageWalker
